import Mathlib

/-!
Verification of `src/lib/sdk/panel/utils.js` (addon-sdk panel utilities).

The JavaScript module manages a XUL "arrow panel" popup: opening, positioning,
resizing, style injection, attachment to a document and disposal.  We give a
shallow embedding: every JS function relevant to the claims is translated into
a Lean function over explicit state records, host-side effects are represented
by effect records or traces, and JS `null`/`undefined` becomes `Option`.
Numeric DOM quantities (coordinates, sizes, zoom factors) are modelled as
rationals.
-/

namespace PanelUtils

/-- A content frame (`viewFrame` or `backgroundFrame`).  Frames are identified
by a numeric id (node identity) and carry the id of their content document. -/
structure Frame where
  id : Nat
  contentDocument : Nat
deriving DecidableEq, Repr

/-- The `documentElement` of the panel's owner document, as far as `display`
reads it: the client area dimensions. -/
structure DocElement where
  clientWidth : ℚ
  clientHeight : ℚ
deriving DecidableEq, Repr

/-- The window of an anchor's owner document, as far as `display` reads it:
zoom factor, inner-screen offsets, and the screen's available size. -/
structure HostWindow where
  mozScreenPixelsPerCSSPixel : ℚ
  mozInnerScreenX : ℚ
  mozInnerScreenY : ℚ
  screenAvailWidth : ℚ
  screenAvailHeight : ℚ
deriving DecidableEq, Repr

/-- Result of `anchor.getBoundingClientRect()` (the fields `display` reads). -/
structure Rect where
  left : ℚ
  top : ℚ
deriving DecidableEq, Repr

/-- An anchor element: its bounding client rect together with
`anchor.ownerDocument.defaultView`. -/
structure AnchorEl where
  rect : Rect
  window : HostWindow
deriving DecidableEq, Repr

/-- The panel node, as far as the embedded functions read it: its `state`
attribute, its owner document's root element, its first child (the view frame
appended by `make`), and the `backgroundFrame` expando property (`none` after
`dispose` has nulled it). -/
structure Panel where
  state : String
  ownerDocument : DocElement
  firstChild : Frame
  backgroundFrame : Option Frame
deriving DecidableEq, Repr

/-- JS `function isOpen(panel) { return panel.state === "open" }`. -/
def isOpen (panel : Panel) : Bool :=
  panel.state == "open"

/-- JS `getContentFrame(panel)`: `isOpen(panel) ? panel.firstChild :
panel.backgroundFrame`.  The result is an `Option` because
`panel.backgroundFrame` is `null` after disposal. -/
def getContentFrame (panel : Panel) : Option Frame :=
  if isOpen panel then some panel.firstChild else panel.backgroundFrame

/-- JS `getContentDocument(panel)`: `getContentFrame(panel).contentDocument`. -/
def getContentDocument (panel : Panel) : Option Nat :=
  (getContentFrame panel).map Frame.contentDocument

/-- The host-visible effects of one `display(panel, width, height, anchor)`
call: the `x`/`y` locals passed to `openPopup` (`none` is JS `null`), the
position token (`none` is JS `null`), whether `setAttribute("flip", "both")`
ran, whether the `shimDefaultStyle` padding shim ran, which frame node had its
`style.width`/`style.height` box set and to what, whether any host `sizeTo`
primitive was used, and the anchor forwarded to `openPopup`. -/
structure DisplayEffect where
  x : Option ℚ
  y : Option ℚ
  position : Option String
  flipSet : Bool
  shimApplied : Bool
  resizedFrame : Frame
  frameWidth : ℚ
  frameHeight : ℚ
  sizeToCalled : Bool
  openPopupAnchor : Option AnchorEl
deriving DecidableEq, Repr

/-- JS `display(panel, width, height, anchor)` (lines 55-109), translated
branch by branch.  `shimDefaultStyle` runs first in both branches.  Without an
anchor, `x`/`y` center the popup in the owner document's client area and
`position` stays `null`.  With an anchor, the screen coordinates are computed
from the bounding rect, the window's inner-screen offsets and the zoom factor;
the vertical side compares `screenY` against `availHeight / 2 + height`, the
horizontal side compares `screenY` (the same vertical coordinate, exactly as
in the source) against `availWidth / 2 + width`, and
`"flip" = "both"` is set.  Both branches then set
`panel.firstChild.style.width/height` (never `panel.sizeTo`) and call
`panel.openPopup(anchor, position, x, y)`. -/
def display (panel : Panel) (width height : ℚ) (anchor : Option AnchorEl) :
    DisplayEffect :=
  match anchor with
  | none =>
    { x := some (panel.ownerDocument.clientWidth / 2 - width / 2)
      y := some (panel.ownerDocument.clientHeight / 2 - height / 2)
      position := none
      flipSet := false
      shimApplied := true
      resizedFrame := panel.firstChild
      frameWidth := width
      frameHeight := height
      sizeToCalled := false
      openPopupAnchor := none }
  | some anchorEl =>
    let window := anchorEl.window
    let zoom := window.mozScreenPixelsPerCSSPixel
    let screenY := anchorEl.rect.top + window.mozInnerScreenY * zoom
    let vertical : String :=
      if screenY > window.screenAvailHeight / 2 + height then "top" else "bottom"
    let horizontal : String :=
      if screenY > window.screenAvailWidth / 2 + width then "left" else "right"
    let verticalInverse : String := if vertical == "top" then "bottom" else "top"
    { x := none
      y := none
      position := some (vertical ++ "center " ++ verticalInverse ++ horizontal)
      flipSet := true
      shimApplied := true
      resizedFrame := panel.firstChild
      frameWidth := width
      frameHeight := height
      sizeToCalled := false
      openPopupAnchor := some anchorEl }

/-- The `screenY` local of `display`'s anchored branch:
`rect.top + window.mozInnerScreenY * zoom`. -/
def anchorScreenY (anchorEl : AnchorEl) : ℚ :=
  anchorEl.rect.top +
    anchorEl.window.mozInnerScreenY * anchorEl.window.mozScreenPixelsPerCSSPixel

/-- JS `resize(panel, width, height)` (lines 47-53): sets
`panel.firstChild.style.width/height`, never a host `sizeTo` call.  The effect
record mirrors the frame-resize part of `DisplayEffect`. -/
structure ResizeEffect where
  resizedFrame : Frame
  frameWidth : ℚ
  frameHeight : ℚ
  sizeToCalled : Bool
deriving DecidableEq, Repr

/-- JS `resize(panel, width, height)`, translated directly. -/
def resize (panel : Panel) (width height : ℚ) : ResizeEffect :=
  { resizedFrame := panel.firstChild
    frameWidth := width
    frameHeight := height
    sizeToCalled := false }

/-- Outcome of one invocation of JS `open(panel, width, height, anchor)`
(lines 23-27): either `setTimeout(open, 50, panel, width, height, anchor)` was
scheduled (carrying the delay in milliseconds and the arguments it will be
re-invoked with), or `display(panel, width, height, anchor)` was called with
the given arguments. -/
inductive OpenOutcome where
  | retryScheduled (delayMs : Nat) (panel : Panel) (width height : ℚ)
      (anchor : Option AnchorEl)
  | displayCalled (panel : Panel) (width height : ℚ) (anchor : Option AnchorEl)
deriving DecidableEq, Repr

/-- One invocation of JS `open`: `if (!panel.openPopup) setTimeout(open, 50,
panel, width, height, anchor); else display(panel, width, height, anchor)`.
`openPopupAvailable` is the truthiness of `panel.openPopup` at this
invocation (the XBL binding may not be constructed yet). -/
def openPanelStep (openPopupAvailable : Bool) (panel : Panel)
    (width height : ℚ) (anchor : Option AnchorEl) : OpenOutcome :=
  if !openPopupAvailable then
    OpenOutcome.retryScheduled 50 panel width height anchor
  else
    OpenOutcome.displayCalled panel width height anchor

/-- The retry loop of `open` over time: `avail k` is the truthiness of
`panel.openPopup` at the k-th invocation (invocation `k + 1` happens 50ms
after invocation `k` whenever invocation `k` rescheduled).  Each invocation
runs the body `openPanelStep` on the unchanged arguments, because
`setTimeout(open, 50, panel, width, height, anchor)` passes the same
arguments along. -/
def openPanelRun (avail : Nat → Bool) (panel : Panel) (width height : ℚ)
    (anchor : Option AnchorEl) (k : Nat) : OpenOutcome :=
  openPanelStep (avail k) panel width height anchor

/-- A JS property value that may be `undefined` or a callable returning a
numeric-coded result (sufficient for `panel.hidePopup`). -/
inductive HostFun where
  | undef
  | fn (result : Nat)
deriving DecidableEq, Repr

/-- Calling a JS value: calling `undefined` throws a `TypeError`, calling a
function returns its result. -/
def callHostFun : HostFun → Except String Nat
  | HostFun.undef => Except.error ("TypeError: panel.hidePopup is not a function")
  | HostFun.fn r => Except.ok r

/-- JS `close(panel)` (lines 36-43): `return panel.hidePopup &&
panel.hidePopup()`.  The `&&` short-circuit returns the falsy `undefined`
(here `none`) without calling when `hidePopup` is absent; otherwise the
primitive is called.  The second component counts how many times the
`hidePopup` host primitive was invoked. -/
def close (hidePopup : HostFun) : Except String (Option Nat × Nat) :=
  if hidePopup = HostFun.undef then Except.ok (none, 0)
  else (callHostFun hidePopup).map (fun r => (some r, 1))

/-- A DOM node inside the content document, as far as `style` is concerned:
its `id` attribute (`""` when unset) and its text content. -/
structure DomNode where
  nodeId : String
  textContent : String
deriving DecidableEq, Repr

/-- The panel's content document, as far as `style` writes it: whether it has
a `head`, the `head`'s child list, and the child list of the root element
that is used as the container when there is no `head`. -/
structure ContentDoc where
  hasHead : Bool
  headChildren : List DomNode
  rootChildren : List DomNode
deriving DecidableEq, Repr

/-- `container.insertBefore(node, container.firstChild)` when the container
has a first child, else `container.appendChild(node)` — exactly the final two
branches of `style`. -/
def insertAtFront (node : DomNode) (children : List DomNode) : List DomNode :=
  if children.isEmpty then children ++ [node] else node :: children

/-- JS `style(panel)` (lines 272-312), success path.  The computed `color`
comes from `window.getComputedStyle(node)` on the anonymous arrow-content
node — a host API — so it is a parameter here.  The function creates a fresh
`<style>` element, sets its `id` to `"sdk-panel-style"` and its text to
`body { color: <color>; }`, picks `contentDocument.head` if present else
`contentDocument.documentElement` as the container, and inserts the new node
as the container's first child.  Nothing looks for or removes a previously
inserted node. -/
def style (color : String) (doc : ContentDoc) : ContentDoc :=
  let styleNode : DomNode :=
    { nodeId := "sdk-panel-style"
      textContent := "body \x7b color: " ++ color ++ "; \x7d" }
  if doc.hasHead then
    { doc with headChildren := insertAtFront styleNode doc.headChildren }
  else
    { doc with rootChildren := insertAtFront styleNode doc.rootChildren }

/-- Number of nodes in the content document whose `id` is
`"sdk-panel-style"` (the injected-stylesheet identifier). -/
def styleNodeCount (doc : ContentDoc) : Nat :=
  doc.headChildren.countP (fun n => n.nodeId == "sdk-panel-style") +
    doc.rootChildren.countP (fun n => n.nodeId == "sdk-panel-style")

/-- The DOM state relevant to `attach`/`detach` (lines 248-261) for one panel
node: the panel's `parentNode` pointer (`none` when detached) and the child
list of every container node, indexed by container id.  For each document,
`document.getElementById("mainPopupSet")` is one such container. -/
structure AttachWorld where
  parentNode : Option Nat
  childrenOf : Nat → List Nat

/-- A host document, as far as `attach` reads it: the node id of its
`mainPopupSet` container element. -/
structure HostDoc where
  mainPopupSet : Nat
deriving DecidableEq, Repr

/-- JS `detach(panel)` (lines 258-260): `if (panel.parentNode)
panel.parentNode.removeChild(panel)`.  `removeChild` erases the panel (node
identity: one occurrence) from the parent's child list and nulls the panel's
parent pointer. -/
def detach (w : AttachWorld) (panel : Nat) : AttachWorld :=
  match w.parentNode with
  | none => w
  | some c =>
    { parentNode := none
      childrenOf := fun x => if x = c then (w.childrenOf c).erase panel
                             else w.childrenOf x }

/-- DOM `container.appendChild(panel)`: moves the panel — removes it from any
current parent, then appends it to `container`'s child list and sets its
parent pointer. -/
def appendChild (w : AttachWorld) (container panel : Nat) : AttachWorld :=
  let w1 := detach w panel
  { parentNode := some container
    childrenOf := fun x => if x = container then w1.childrenOf x ++ [panel]
                           else w1.childrenOf x }

/-- JS `attach(panel, document)` (lines 248-255): looks up the document's
`mainPopupSet` container; if it is not already the panel's parent
(`container !== panel.parentNode`), detaches the panel and appends it to the
container; otherwise does nothing. -/
def attach (w : AttachWorld) (panel : Nat) (document : HostDoc) : AttachWorld :=
  let container := document.mainPopupSet
  if w.parentNode = some container then w
  else appendChild (detach w panel) container panel

/-- Well-formedness of the DOM state with respect to the tracked panel node:
the parent pointer and the child lists agree (the panel is in a container's
child list exactly when that container is its parent), and no child list
holds the panel twice.  True of any real DOM. -/
def Coherent (w : AttachWorld) (panel : Nat) : Prop :=
  (∀ c, panel ∈ w.childrenOf c ↔ w.parentNode = some c) ∧
    ∀ c, (w.childrenOf c).count panel ≤ 1

/-- Modelled from the spec: the global event bus collaborator
(`../system/events`, not under `src/`): `on`/`off`/`emit` over a process-wide
registration table, synchronous dispatch.  A registration is an event name
paired with a handler id. -/
abbrev BusHandlers : Type := List (String × Nat)

/-- Modelled from the spec: `events.off(eventName, handler)` deregisters that
handler for that event name.  Called with a `null` handler it deregisters
nothing (no registration holds a null handler). -/
def eventsOff (handlers : BusHandlers) (name : String) (handler : Option Nat) :
    BusHandlers :=
  List.filter (fun e => !(e.1 == name && some e.2 == handler)) handlers

/-- Modelled from the spec: the handlers a synchronous
`events.emit(eventName, ...)` invokes — every handler registered for that
event name, in registration order. -/
def emitInvokes (handlers : BusHandlers) (name : String) : List Nat :=
  (List.filter (fun e => e.1 == name) handlers).map (fun e => e.2)

/-- The mutable state `dispose(panel)` (lines 263-270) touches: the panel's
`backgroundFrame` and `onContentChange` expando properties and its
`parentNode`, the child list of the background frame's parent node, and the
global bus registrations. -/
structure DisposeWorld where
  backgroundFrame : Option Nat
  onContentChange : Option Nat
  panelParent : Option Nat
  bgParentChildren : List Nat
  busHandlers : BusHandlers

/-- Host/bus calls `dispose` makes, in order. -/
inductive DisposeCall where
  | removeChildCall (child : Nat)
  | offCall (eventName : String) (handler : Option Nat)
  | detachCall
deriving DecidableEq, Repr

/-- JS `dispose(panel)` (lines 263-270), line by line:
`panel.backgroundFrame.parentNode.removeChild(panel.backgroundFrame)` (throws
a `TypeError`, here `none`, if `backgroundFrame` is already `null`);
`panel.backgroundFrame = null`;
`events.off("document-element-inserted", panel.onContentChange)`;
`panel.onContentChange = null`; `detach(panel)`.  Returns the new state and
the trace of host/bus calls. -/
def dispose (w : DisposeWorld) : Option (DisposeWorld × List DisposeCall) :=
  match w.backgroundFrame with
  | none => none
  | some frame =>
    some
      ({ backgroundFrame := none
         onContentChange := none
         panelParent := none
         bgParentChildren := w.bgParentChildren.erase frame
         busHandlers :=
           eventsOff w.busHandlers "document-element-inserted" w.onContentChange },
       [DisposeCall.removeChildCall frame,
        DisposeCall.offCall "document-element-inserted" w.onContentChange,
        DisposeCall.detachCall])

/-- The event-name translation table `EVENT_NAMES` (lines 151-159). -/
def EVENT_NAMES : List (String × String) :=
  [("popupshowing", "sdk-panel-show"),
   ("popuphiding", "sdk-panel-hide"),
   ("popupshown", "sdk-panel-shown"),
   ("popuphidden", "sdk-panel-hidden"),
   ("document-element-inserted", "sdk-panel-content-changed"),
   ("DOMContentLoaded", "sdk-panel-content-loaded"),
   ("load", "sdk-panel-document-loaded")]

/-- Actions the `make`-registered content handlers perform, in order:
`style(panel)` and `events.emit(EVENT_NAMES[type], { subject: panel })` (the
emitted name is `none` when `type` is not in the table, matching the
JS `undefined`). -/
inductive HandlerAction where
  | styleCall
  | emitEvent (name : Option String)
deriving DecidableEq, Repr

/-- JS `onContentReady({target, type})` (lines 198-203), the handler `make`
registers for capture-phase `DOMContentLoaded` on the panel and on the
background frame: if the event's target is identical to
`getContentDocument(panel)` it calls `style(panel)` and then emits
`EVENT_NAMES[type]` with the panel as subject; otherwise it does nothing.
`target` is a document id, compared against the active content document. -/
def onContentReady (panel : Panel) (target : Nat) (evType : String) :
    List HandlerAction :=
  if some target = getContentDocument panel then
    [HandlerAction.styleCall,
     HandlerAction.emitEvent (EVENT_NAMES.lookup evType)]
  else []

/-! Theorems for the claims. -/

/-- C1: for every `display(panel, width, height, anchor)` call with a
non-null anchor, the position token passed to `openPopup` is
`vertical ++ "center " ++ oppositeVertical ++ horizontal`, where `vertical`
is `"top"` iff the anchor's screen Y exceeds `availHeight / 2 + height`
(else `"bottom"`), and `horizontal` is `"left"` iff the same screen Y (the
vertical coordinate) exceeds `availWidth / 2 + width` (else `"right"`); in
particular screen Y above both thresholds yields `"topcenter bottomleft"` and
screen Y at or below both thresholds yields `"bottomcenter topright"`. -/
theorem display_anchor_position_spec (panel : Panel) (width height : ℚ)
    (a : AnchorEl) :
    ((display panel width height (some a)).position =
      some ((if anchorScreenY a > a.window.screenAvailHeight / 2 + height
               then "top" else "bottom") ++ "center " ++
            (if anchorScreenY a > a.window.screenAvailHeight / 2 + height
               then "bottom" else "top") ++
            (if anchorScreenY a > a.window.screenAvailWidth / 2 + width
               then "left" else "right"))) ∧
    (anchorScreenY a > a.window.screenAvailHeight / 2 + height ∧
       anchorScreenY a > a.window.screenAvailWidth / 2 + width →
      (display panel width height (some a)).position =
        some ("topcenter bottomleft")) ∧
    (anchorScreenY a ≤ a.window.screenAvailHeight / 2 + height ∧
       anchorScreenY a ≤ a.window.screenAvailWidth / 2 + width →
      (display panel width height (some a)).position =
        some ("bottomcenter topright")) := by
  refine ⟨?_, ?_, ?_⟩
  · simp only [display, anchorScreenY]
    split_ifs <;> simp_all
  · rintro ⟨h1, h2⟩
    simp only [display, anchorScreenY] at *
    rw [if_pos h1, if_pos h2]
    simp
  · rintro ⟨h1, h2⟩
    simp only [display, anchorScreenY] at *
    rw [if_neg (not_lt.mpr h1), if_neg (not_lt.mpr h2)]
    simp

/-- Witness for C1 at a concrete anchor whose screen Y (= 900) exceeds both
thresholds (availHeight / 2 + height = 500 + 100, availWidth / 2 + width =
400 + 100). -/
theorem display_anchor_position_witness :
    (display
      { state := "closed", ownerDocument := { clientWidth := 0, clientHeight := 0 },
        firstChild := { id := 0, contentDocument := 10 },
        backgroundFrame := some { id := 1, contentDocument := 11 } }
      100 100
      (some { rect := { left := 0, top := 900 },
              window := { mozScreenPixelsPerCSSPixel := 1, mozInnerScreenX := 0,
                          mozInnerScreenY := 0, screenAvailWidth := 800,
                          screenAvailHeight := 1000 } })).position =
      some ("topcenter bottomleft") :=
  (display_anchor_position_spec _ 100 100 _).2.1
    (by constructor <;> · simp [anchorScreenY]; norm_num)

/-- C5: `display(panel, width, height, anchor)` with no anchor opens the
popup at `x = (clientWidth - width) / 2` and `y = (clientHeight - height) / 2`
of the owner document's client area, with a null position token and without
setting the `flip` attribute. -/
theorem display_center_no_anchor (panel : Panel) (width height : ℚ) :
    (display panel width height none).x =
      some ((panel.ownerDocument.clientWidth - width) / 2) ∧
    (display panel width height none).y =
      some ((panel.ownerDocument.clientHeight - height) / 2) ∧
    (display panel width height none).position = none ∧
    (display panel width height none).flipSet = false := by
  refine ⟨?_, ?_, rfl, rfl⟩ <;>
    · simp only [display, Option.some.injEq]
      ring

/-- C8: `close(panel)` with an undefined `hidePopup` does not raise and
invokes nothing (zero primitive calls); with `hidePopup` present it invokes
the primitive once and returns its result. -/
theorem close_absent_primitive_spec (r : Nat) :
    close HostFun.undef = Except.ok (none, 0) ∧
    close (HostFun.fn r) = Except.ok (some r, 1) :=
  ⟨rfl, rfl⟩

/-- C3 counterexample: on a closed panel the active content frame
(`getContentFrame`) is the background frame, but `resize` sets the box of the
panel's first child (the view frame), a different frame — so `resize` does
not set the active content frame's box. -/
theorem resize_view_frame_counterexample :
    (getContentFrame
        { state := "closed",
          ownerDocument := { clientWidth := 100, clientHeight := 100 },
          firstChild := { id := 0, contentDocument := 10 },
          backgroundFrame := some { id := 1, contentDocument := 11 } } =
      some { id := 1, contentDocument := 11 }) ∧
    (resize
        { state := "closed",
          ownerDocument := { clientWidth := 100, clientHeight := 100 },
          firstChild := { id := 0, contentDocument := 10 },
          backgroundFrame := some { id := 1, contentDocument := 11 } }
        5 5).resizedFrame ≠ { id := 1, contentDocument := 11 } := by
  constructor
  · rfl
  · decide

/-- C3 amended: `resize(panel, width, height)` performs the same box-resize
as `display` — setting the panel's first child frame's (the view frame's)
visual box to `width` by `height` pixels — independent of the panel's open
state, and never uses a host-provided size-to call. -/
theorem resize_box_resize_spec (panel : Panel) (width height : ℚ)
    (anchor : Option AnchorEl) :
    (resize panel width height).resizedFrame = panel.firstChild ∧
    (resize panel width height).frameWidth = width ∧
    (resize panel width height).frameHeight = height ∧
    (resize panel width height).sizeToCalled = false ∧
    (display panel width height anchor).resizedFrame =
      (resize panel width height).resizedFrame ∧
    (display panel width height anchor).frameWidth =
      (resize panel width height).frameWidth ∧
    (display panel width height anchor).frameHeight =
      (resize panel width height).frameHeight ∧
    (display panel width height anchor).sizeToCalled = false := by
  cases anchor <;> simp [resize, display]

/-- C4: while `panel.openPopup` is unavailable, each invocation of `open`
reschedules itself after a fixed 50ms delay with the same panel, width,
height and anchor; at the first invocation where it is available, `open`
delegates to `display` with the original arguments unchanged; `display` is
never invoked at an invocation where `openPopup` is unavailable. -/
theorem openPanel_retry_spec (avail : Nat → Bool) (panel : Panel)
    (width height : ℚ) (anchor : Option AnchorEl) (n : Nat)
    (hbefore : ∀ k, k < n → avail k = false) (hn : avail n = true) :
    (∀ k, k < n → openPanelRun avail panel width height anchor k =
      OpenOutcome.retryScheduled 50 panel width height anchor) ∧
    openPanelRun avail panel width height anchor n =
      OpenOutcome.displayCalled panel width height anchor ∧
    (∀ k, avail k = false → ∀ w2 h2 a2,
      openPanelRun avail panel width height anchor k ≠
        OpenOutcome.displayCalled panel w2 h2 a2) := by
  refine ⟨?_, ?_, ?_⟩
  · intro k hk
    simp [openPanelRun, openPanelStep, hbefore k hk]
  · simp [openPanelRun, openPanelStep, hn]
  · intro k hk w2 h2 a2
    simp [openPanelRun, openPanelStep, hk]

/-- Witness for C4: `openPopup` becomes available at the third invocation
(index 2); the run retries twice and then calls `display` with the original
arguments. -/
theorem openPanel_retry_witness :
    openPanelRun (fun k => decide (2 ≤ k))
      { state := "closed", ownerDocument := { clientWidth := 0, clientHeight := 0 },
        firstChild := { id := 0, contentDocument := 10 },
        backgroundFrame := some { id := 1, contentDocument := 11 } }
      5 7 none 2 =
    OpenOutcome.displayCalled
      { state := "closed", ownerDocument := { clientWidth := 0, clientHeight := 0 },
        firstChild := { id := 0, contentDocument := 10 },
        backgroundFrame := some { id := 1, contentDocument := 11 } }
      5 7 none :=
  (openPanel_retry_spec (fun k => decide (2 ≤ k)) _ 5 7 none 2
    (by decide) (by decide)).2.1

/-- C10: when a `DOMContentLoaded` event fires whose target is identical to
the panel's current active content document, the handler `make` registers
applies `style(panel)` before emitting `"sdk-panel-content-loaded"`; for a
non-matching target neither the styling nor the emission occurs. -/
theorem onContentReady_spec (panel : Panel) (target : Nat) :
    (some target = getContentDocument panel →
      onContentReady panel target ("DOMContentLoaded") =
        [HandlerAction.styleCall,
         HandlerAction.emitEvent (some ("sdk-panel-content-loaded"))]) ∧
    (some target ≠ getContentDocument panel →
      onContentReady panel target ("DOMContentLoaded") = []) := by
  constructor
  · intro h
    simp only [onContentReady, if_pos h]
    rfl
  · intro h
    simp only [onContentReady, if_neg h]

/-- Witness for C10: an open panel whose view frame holds content document
10; a matching event yields style-then-emit, and the non-matching target 99
yields nothing. -/
theorem onContentReady_witness :
    (onContentReady
        { state := "open", ownerDocument := { clientWidth := 0, clientHeight := 0 },
          firstChild := { id := 0, contentDocument := 10 },
          backgroundFrame := some { id := 1, contentDocument := 11 } }
        10 ("DOMContentLoaded") =
      [HandlerAction.styleCall,
       HandlerAction.emitEvent (some ("sdk-panel-content-loaded"))]) ∧
    (onContentReady
        { state := "open", ownerDocument := { clientWidth := 0, clientHeight := 0 },
          firstChild := { id := 0, contentDocument := 10 },
          backgroundFrame := some { id := 1, contentDocument := 11 } }
        99 ("DOMContentLoaded") = []) :=
  ⟨(onContentReady_spec _ 10).1 (by decide),
   (onContentReady_spec _ 99).2 (by decide)⟩

/-- C2 counterexample: starting from a content document whose head is empty,
two `style` calls leave two nodes with id `"sdk-panel-style"` in the
document, not exactly one — each call inserts a fresh stylesheet node and
never removes or replaces the previous one. -/
theorem style_accumulates_counterexample :
    styleNodeCount
        (style ("rgb(0, 0, 0)")
          (style ("rgb(0, 0, 0)")
            { hasHead := true, headChildren := [], rootChildren := [] })) = 2 ∧
    ¬ styleNodeCount
        (style ("rgb(0, 0, 0)")
          (style ("rgb(0, 0, 0)")
            { hasHead := true, headChildren := [], rootChildren := [] })) = 1 := by
  decide

/-- Each `style` call adds exactly one node with the fixed stylesheet id to
the content document. -/
theorem styleNodeCount_style (color : String) (doc : ContentDoc) :
    styleNodeCount (style color doc) = styleNodeCount doc + 1 := by
  simp only [style, styleNodeCount, insertAtFront]
  by_cases hh : doc.hasHead <;> simp [hh] <;> split_ifs <;>
    simp [List.countP_cons, List.countP_append] <;> omega

/-- C2 amended: repeated `style(panel)` calls accumulate rather than replace:
after n calls on a content document initially containing no node with id
`"sdk-panel-style"`, the document contains exactly n such nodes (each call
inserts a fresh one at the front of the container, never removing the
previous ones). -/
theorem style_inject_count (color : String) (doc : ContentDoc) (n : Nat)
    (h0 : styleNodeCount doc = 0) :
    styleNodeCount ((style color)^[n] doc) = n := by
  induction n with
  | zero => simpa using h0
  | succ m ih =>
    rw [Function.iterate_succ_apply', styleNodeCount_style, ih]

/-- Witness for C2 amended: three `style` calls on an initially clean
document leave three tagged nodes. -/
theorem style_inject_count_witness :
    styleNodeCount
        ((style ("rgb(0, 0, 0)"))^[3]
          { hasHead := true, headChildren := [], rootChildren := [] }) = 3 :=
  style_inject_count ("rgb(0, 0, 0)")
    { hasHead := true, headChildren := [], rootChildren := [] } 3 (by decide)

/-- C9: `isOpen(panel)` is true exactly when `panel.state` is `"open"`;
`getContentFrame` returns the view frame (the panel's first child) exactly
when `isOpen` holds and the background frame exactly otherwise, so exactly
one of the two distinct frames is the active content frame at any time; and
`getContentDocument` is the content document of that active frame. -/
theorem isOpen_state_frames_spec (panel : Panel) (bg : Frame)
    (hbg : panel.backgroundFrame = some bg) (hne : bg ≠ panel.firstChild) :
    ((isOpen panel = true) ↔ panel.state = "open") ∧
    (getContentFrame panel = some panel.firstChild ↔ isOpen panel = true) ∧
    (getContentFrame panel = some bg ↔ isOpen panel = false) ∧
    ¬ (getContentFrame panel = some panel.firstChild ∧
        getContentFrame panel = some bg) ∧
    getContentDocument panel =
      some (if isOpen panel then panel.firstChild.contentDocument
            else bg.contentDocument) := by
  have hstate : (isOpen panel = true) ↔ panel.state = "open" := by
    simp [isOpen]
  by_cases h : isOpen panel
  · refine ⟨hstate, ?_, ?_, ?_, ?_⟩ <;>
      simp [getContentFrame, getContentDocument, h, hbg]
    · intro heq
      exact hne heq.symm
    · intro heq
      exact hne heq.symm
  · refine ⟨hstate, ?_, ?_, ?_, ?_⟩ <;>
      simp [getContentFrame, getContentDocument, h, hbg]
    · intro heq
      exact hne heq
    · intro heq
      exact hne heq

/-- Witness for C9 on a concrete closed panel with distinct frames: the
active content frame is the background frame. -/
theorem isOpen_state_frames_witness :
    getContentFrame
        { state := "closed",
          ownerDocument := { clientWidth := 100, clientHeight := 100 },
          firstChild := { id := 0, contentDocument := 10 },
          backgroundFrame := some { id := 1, contentDocument := 11 } } =
      some { id := 1, contentDocument := 11 } :=
  (isOpen_state_frames_spec _ { id := 1, contentDocument := 11 } rfl
    (by decide)).2.2.1.mpr (by decide)

/-- C6: `dispose(panel)` removes the background frame from its parent and
clears the panel's background-frame reference to null, deregisters the
panel's global `"document-element-inserted"` listener exactly once, and
detaches the panel node; afterwards the content-change handler is not among
the handlers a subsequent `"document-element-inserted"` emission invokes. -/
theorem dispose_spec (w : DisposeWorld) (frame handler : Nat)
    (hbg : w.backgroundFrame = some frame)
    (hoc : w.onContentChange = some handler)
    (hcount : w.bgParentChildren.count frame ≤ 1) :
    ∃ w2 calls, dispose w = some (w2, calls) ∧
      w2.backgroundFrame = none ∧
      frame ∉ w2.bgParentChildren ∧
      w2.onContentChange = none ∧
      w2.panelParent = none ∧
      calls.count
        (DisposeCall.offCall ("document-element-inserted") (some handler)) = 1 ∧
      handler ∉ emitInvokes w2.busHandlers ("document-element-inserted") := by
  refine
    ⟨{ backgroundFrame := none
       onContentChange := none
       panelParent := none
       bgParentChildren := w.bgParentChildren.erase frame
       busHandlers :=
         eventsOff w.busHandlers ("document-element-inserted") w.onContentChange },
     [DisposeCall.removeChildCall frame,
      DisposeCall.offCall ("document-element-inserted") w.onContentChange,
      DisposeCall.detachCall],
     by simp [dispose, hbg], rfl, ?_, rfl, rfl, ?_, ?_⟩
  · have h1 : (w.bgParentChildren.erase frame).count frame =
        w.bgParentChildren.count frame - 1 := List.count_erase_self frame _
    have h2 : (w.bgParentChildren.erase frame).count frame = 0 := by omega
    exact List.count_eq_zero.mp h2
  · rw [hoc]
    simp [List.count_cons, List.count_nil]
  · intro hmem
    rw [hoc] at hmem
    simp only [emitInvokes, eventsOff, List.mem_map, List.mem_filter] at hmem
    obtain ⟨e, ⟨⟨hmem1, hkeep⟩, hname⟩, hsnd⟩ := hmem
    subst hsnd
    simp [hname] at hkeep

/-- Witness for C6 on a concrete world: background frame 1, content-change
handler 7, one matching bus registration. -/
theorem dispose_spec_witness :
    ∃ w2 calls,
      dispose
          { backgroundFrame := some 1, onContentChange := some 7,
            panelParent := some 3, bgParentChildren := [1],
            busHandlers := [(("document-element-inserted" : String), 7)] } =
        some (w2, calls) ∧
      w2.backgroundFrame = none ∧
      (1 : Nat) ∉ w2.bgParentChildren ∧
      w2.onContentChange = none ∧
      w2.panelParent = none ∧
      calls.count
        (DisposeCall.offCall ("document-element-inserted") (some 7)) = 1 ∧
      (7 : Nat) ∉ emitInvokes w2.busHandlers ("document-element-inserted") :=
  dispose_spec
    { backgroundFrame := some 1, onContentChange := some 7,
      panelParent := some 3, bgParentChildren := [1],
      busHandlers := [(("document-element-inserted" : String), 7)] }
    1 7 rfl rfl (by decide)

/-- After `detach` the panel's parent pointer is null. -/
theorem detach_parentNode (w : AttachWorld) (p : Nat) :
    (detach w p).parentNode = none := by
  cases h : w.parentNode <;> simp [detach, h]

/-- `detach` on an already-detached panel is a no-op. -/
theorem detach_of_parentNode_none (w : AttachWorld) (p : Nat)
    (h : w.parentNode = none) : detach w p = w := by
  simp [detach, h]

/-- In a coherent DOM state, after `detach` the panel is in no container's
child list. -/
theorem detach_not_mem (w : AttachWorld) (p : Nat) (hc : Coherent w p)
    (c : Nat) : p ∉ (detach w p).childrenOf c := by
  obtain ⟨hiff, hcnt⟩ := hc
  cases h : w.parentNode with
  | none =>
    rw [detach_of_parentNode_none w p h]
    intro hm
    have := (hiff c).mp hm
    rw [h] at this
    exact Option.noConfusion this
  | some c0 =>
    simp only [detach, h]
    by_cases hcc : c = c0
    · subst hcc
      simp only [if_pos rfl]
      have h1 : ((w.childrenOf c).erase p).count p = (w.childrenOf c).count p - 1 :=
        List.count_erase_self p _
      have h2 : ((w.childrenOf c).erase p).count p = 0 := by
        have := hcnt c
        omega
      exact List.count_eq_zero.mp h2
    · simp only [if_neg hcc]
      intro hm
      have := (hiff c).mp hm
      rw [h] at this
      exact hcc (Option.some.inj this).symm

/-- After `attach` the panel's parent is the document's `mainPopupSet`. -/
theorem attach_parentNode (w : AttachWorld) (p : Nat) (d : HostDoc) :
    (attach w p d).parentNode = some d.mainPopupSet := by
  by_cases h : w.parentNode = some d.mainPopupSet <;>
    simp [attach, appendChild, h]

/-- C7: `attach` is idempotent — a second `attach` with the same document is
a no-op, after one (hence after two) `attach` calls the panel occurs exactly
once in that document's popup container, the panel is a child of exactly one
container, and if it was attached to a different parent it has been detached
from there. -/
theorem attach_idempotent_spec (w : AttachWorld) (p : Nat) (d : HostDoc)
    (hc : Coherent w p) :
    attach (attach w p d) p d = attach w p d ∧
    ((attach w p d).childrenOf d.mainPopupSet).count p = 1 ∧
    ((attach (attach w p d) p d).childrenOf d.mainPopupSet).count p = 1 ∧
    (∀ c, p ∈ (attach w p d).childrenOf c ↔ c = d.mainPopupSet) ∧
    (∀ c0, w.parentNode = some c0 → c0 ≠ d.mainPopupSet →
      p ∉ (attach w p d).childrenOf c0) := by
  have hidem : attach (attach w p d) p d = attach w p d := by
    have hp := attach_parentNode w p d
    rw [attach]
    simp [hp]
  have hdd : detach (detach w p) p = detach w p :=
    detach_of_parentNode_none _ p (detach_parentNode w p)
  have hcount : ((attach w p d).childrenOf d.mainPopupSet).count p = 1 := by
    by_cases h : w.parentNode = some d.mainPopupSet
    · have ha : attach w p d = w := by simp [attach, h]
      rw [ha]
      have hmem : p ∈ w.childrenOf d.mainPopupSet := (hc.1 _).mpr h
      have h1 : 0 < (w.childrenOf d.mainPopupSet).count p :=
        List.count_pos_iff.mpr hmem
      have h2 := hc.2 d.mainPopupSet
      omega
    · have ha : attach w p d = appendChild (detach w p) d.mainPopupSet p := by
        simp [attach, h]
      have h0 : ((detach w p).childrenOf d.mainPopupSet).count p = 0 :=
        List.count_eq_zero.mpr (detach_not_mem w p hc d.mainPopupSet)
      rw [ha]
      simp [appendChild, hdd, List.count_append, h0]
  have hiff : ∀ c, p ∈ (attach w p d).childrenOf c ↔ c = d.mainPopupSet := by
    intro c
    by_cases h : w.parentNode = some d.mainPopupSet
    · have ha : attach w p d = w := by simp [attach, h]
      rw [ha, hc.1 c, h]
      constructor
      · intro hsome
        exact (Option.some.inj hsome).symm
      · intro hce
        rw [hce]
    · have ha : attach w p d = appendChild (detach w p) d.mainPopupSet p := by
        simp [attach, h]
      rw [ha]
      simp only [appendChild, hdd]
      by_cases hcc : c = d.mainPopupSet
      · subst hcc
        simp
      · simp only [if_neg hcc, iff_false, hcc]
        exact detach_not_mem w p hc c
  refine ⟨hidem, hcount, ?_, hiff, ?_⟩
  · rw [hidem]
    exact hcount
  · intro c0 h1 h2 hm
    exact h2 ((hiff c0).mp hm)

/-- Witness for C7 on a concrete coherent state: panel 5 is attached to
container 9, attaching it to the popup container 2 of another document gives
exactly one membership there. -/
theorem attach_idempotent_witness :
    ((attach
        { parentNode := some 9,
          childrenOf := fun x => if x = 9 then [5] else [] }
        5 { mainPopupSet := 2 }).childrenOf 2).count 5 = 1 :=
  (attach_idempotent_spec
    { parentNode := some 9, childrenOf := fun x => if x = 9 then [5] else [] }
    5 { mainPopupSet := 2 }
    ⟨fun c => by by_cases h : c = 9 <;> simp [h, eq_comm],
     fun c => by by_cases h : c = 9 <;> simp [h]⟩).2.1

end PanelUtils
